import Mathlib

/-!
Verification of the AWS IoT Core / MQTT image-classification repository.

This file shallowly embeds the Python sources:
  * `lambda_function.py` (the main serverless inference handler, in the
    `lamba_function-8ec39c4c-...` directory): label loading from a CSV
    file, event parsing, base64 decoding, image preprocessing, SageMaker
    invocation, probability-to-label mapping, MQTT republication;
  * `pub2.py` (the device publisher): the connection callback, the
    bounded connection-wait loop, and the publish loop.

External library calls (base64, PIL, boto3, json) are modelled as oracle
functions carried in a `World` structure: each call that can raise an
exception becomes an `Option`-valued function.  Machine floats are
modelled as rationals.  Wall-clock time in the publisher is discretised
into the 0.1-second sleep ticks of its wait loop.
-/

set_option maxRecDepth 20000

namespace MqttImgClass

/-- JSON value, used to model the parsed SageMaker response
(`json.loads(sagemaker_result_str)` in `lambda_function.py`). -/
inductive Json where
  | null : Json
  | bool (b : Bool) : Json
  | num (q : ℚ) : Json
  | str (s : String) : Json
  | arr (items : List Json) : Json
  | obj (fields : List (String × Json)) : Json

/-- Model of the Python dict membership / subscript used at
`isinstance(sagemaker_parsed_data, dict) and "probabilities" in sagemaker_parsed_data`:
returns the value under a key of a JSON object, `none` when the value is
not an object or the key is absent. -/
def Json.getKey : Json → String → Option Json
  | .obj fields, k => fields.lookup k
  | _, _ => none

/-- Model of extracting a list of floats from a JSON array (the elements
of the `probabilities` list, over which `max`, `.index` and `round` are
applied).  A non-numeric element makes those operations raise, which the
handler's outer `except` turns into a 500; we model that by `none`. -/
def asRatList : List Json → Option (List ℚ)
  | [] => some []
  | .num q :: rest => (asRatList rest).map (q :: ·)
  | _ => none

/-- Body dictionaries the handler builds and passes to `json.dumps`:
`{'prediction': ..., 'confidence': ...}` on success, `{'error': ...}` on
most failures, and `{'error': ..., 'traceback': ...}` on the
unhandled-exception path (line 214 of `lambda_function.py`). -/
inductive Body where
  | success (prediction : String) (confidence : ℚ) : Body
  | error (msg : String) : Body
  | errorTb (msg tb : String) : Body
deriving DecidableEq

/-- Return value of the handler: `{'statusCode': ..., 'body': json.dumps(d)}`
with `d` the `Body` dictionary. -/
structure LambdaResult where
  statusCode : Nat
  body : Body
deriving DecidableEq

/-- Model of a PIL image: only the attributes the code manipulates
(size via `resize`, colour mode via `convert`). -/
structure PILImage where
  width : Nat
  height : Nat
  mode : String
deriving DecidableEq

/-- Model of `Image.convert('RGB')`. -/
def convertRGB (img : PILImage) : PILImage := { img with mode := "RGB" }

/-- Model of `Image.resize((w, h))`. -/
def pilResize (img : PILImage) (w h : Nat) : PILImage :=
  { width := w, height := h, mode := img.mode }

/-- Artifact of `image.save(buffer, format="JPEG")`: the image together
with the encoding format requested. -/
structure EncodedImage where
  image : PILImage
  format : String
deriving DecidableEq

/-- Model of `image.save(buffer, format=fmt)`. -/
def saveImage (img : PILImage) (fmt : String) : EncodedImage := ⟨img, fmt⟩

/-- The preprocessing pipeline of step 3 of the handler:
`Image.open(...).convert('RGB')` followed by `image.resize((224, 224))`.
(`Image.open` itself is an oracle in `World`; conversion and resizing are
deterministic attribute transformations.) -/
def preprocessImage (img : PILImage) : PILImage :=
  pilResize (convertRGB img) 224 224

/-- Oracles for the external libraries the handler calls.  An
`Option`-valued field returning `none` models the library call raising an
exception at that point. -/
structure World where
  /-- `base64.b64decode`; `none` models `binascii.Error` etc. -/
  b64decode : String → Option (List Nat)
  /-- `Image.open(BytesIO(bytes)).convert('RGB')` viewed as producing the
  opened image; `none` models `UnidentifiedImageError` etc. on corrupt
  bytes.  (The subsequent `convert`/`resize` are modelled separately.) -/
  imageOpen : List Nat → Option PILImage
  /-- serialised bytes `buffer.getvalue()` of a saved image. -/
  jpegEncode : EncodedImage → List Nat
  /-- `sagemaker_runtime.invoke_endpoint(...)` plus `response['Body'].read().decode()`;
  arguments are the endpoint name and the request body bytes; `none`
  models a raised `ClientError` or read failure. -/
  invoke : String → List Nat → Option String
  /-- `json.loads` on the SageMaker response string; `none` models
  `JSONDecodeError`. -/
  jsonLoads : String → Option Json
  /-- text interpolated from the caught exception `e` in the `f"... {e}"`
  error messages. -/
  excMsg : String
  /-- text of `traceback.format_exc()`. -/
  tbText : String

/-- Module-level configuration and global state the handler reads:
`IMAGENET_LABELS`, `LABELS_LOADED_SUCCESSFULLY`, `SAGEMAKER_ENDPOINT_NAME`,
`RESPONSE_TOPIC`. -/
structure Config where
  labels : List String
  labelsLoaded : Bool
  endpointName : String
  responseTopic : String

/-- Model of Python `int(s)` as used on `row[0]`: optional surrounding
whitespace, an optional sign, then decimal digits.  (Digit-group
underscores accepted by CPython are not modelled; a row using them is
merely classified as skipped here.) -/
def parseDigits (cs : List Char) : Option Nat :=
  if cs = [] then none
  else cs.foldl (fun acc c =>
    match acc with
    | some n => if c.isDigit then some (n * 10 + (c.toNat - 48)) else none
    | none => none) (some 0)

/-- Strips leading and trailing whitespace from a character list (the
surrounding-whitespace tolerance of Python `int`). -/
def trimChars (cs : List Char) : List Char :=
  ((cs.dropWhile Char.isWhitespace).reverse.dropWhile Char.isWhitespace).reverse

/-- Python `int(row[0])`; `none` models the `ValueError` caught by the
per-row handler in `load_labels_from_csv`. -/
def pyInt (s : String) : Option Int :=
  match trimChars s.toList with
  | '-' :: rest => (parseDigits rest).map (fun n => -(n : Int))
  | '+' :: rest => (parseDigits rest).map (fun n => (n : Int))
  | cs => (parseDigits cs).map (fun n => (n : Int))

/-- One iteration of the row loop of `load_labels_from_csv`: state is the
pair `(labels_temp, count)`.  A row is used only when it has exactly two
fields, its first field parses as an int in `[0, 1000)`, and that slot is
still `None`; otherwise the row is skipped (malformed, out-of-range, or
duplicate — the first occurrence is kept). -/
def loadStep (s : List (Option String) × Nat) (row : List String) :
    List (Option String) × Nat :=
  match row with
  | [a, b] =>
    match pyInt a with
    | some index =>
      if 0 ≤ index ∧ index < 1000 then
        if s.1.getD index.toNat none = none then
          (s.1.set index.toNat (some b), s.2 + 1)
        else s
      else s
    | none => s
  | _ => s

/-- The row loop of `load_labels_from_csv` run over all CSV rows, starting
from `labels_temp = [None] * 1000` and `count = 0`. -/
def loadFold (rows : List (List String)) : List (Option String) × Nat :=
  rows.foldl loadStep (List.replicate 1000 none, 0)

/-- The `count` of valid label rows found by `load_labels_from_csv`
(0 when the file is missing or unreadable). -/
def labelCount : Option (List (List String)) → Nat
  | none => 0
  | some rows => (loadFold rows).2

/-- Model of `load_labels_from_csv`: the CSV file is `none` when missing
or unreadable (`FileNotFoundError` or any other exception, both of which
reset the globals), otherwise the list of rows produced by `csv.reader`.
Returns the final values of `(IMAGENET_LABELS, LABELS_LOADED_SUCCESSFULLY)`. -/
def load_labels_from_csv (file : Option (List (List String))) :
    List String × Bool :=
  match file with
  | none => ([], false)
  | some rows =>
    let t := loadFold rows
    if t.2 = 1000 ∧ t.1.all Option.isSome then
      (t.1.map (fun o => o.getD ""), true)
    else ([], false)

/-- The module-level globals after `load_labels_from_csv(LABELS_FILENAME)`
ran at initialization, together with the environment-derived
configuration constants. -/
def initConfig (file : Option (List (List String))) (ep topic : String) :
    Config :=
  { labels := (load_labels_from_csv file).1
    labelsLoaded := (load_labels_from_csv file).2
    endpointName := ep
    responseTopic := topic }

/-- Model of `publish_response(payload_dict)`: appends the payload to the
trace of published messages unless `RESPONSE_TOPIC` is empty (the
function then logs and returns without publishing); a publish exception
is swallowed, so the trace records publish attempts. -/
def publish_response (cfg : Config) (acc : List Body) (payload : Body) :
    List Body :=
  if cfg.responseTopic = "" then acc else acc ++ [payload]

/-- Model of Python `max(list)`: scans left to right keeping the current
maximum, replacing it only on strict increase; `none` on the empty list
(where `max` raises `ValueError`). -/
def listMax : List ℚ → Option ℚ
  | [] => none
  | x :: xs => some (xs.foldl (fun a b => if a < b then b else a) x)

/-- Model of Python `list.index(m)`: index of the first occurrence. -/
def indexOfQ (m : ℚ) : List ℚ → Nat
  | [] => 0
  | x :: xs => if x = m then 0 else indexOfQ m xs + 1

/-- Round-half-to-even of `q * 10000`: with `t / d` the scaled value in
lowest terms, take its floor `f` and compare twice the remainder against
the denominator to decide between `f`, `f + 1`, and — on an exact
half — the even neighbour.  Computed on numerator and denominator
directly so that it evaluates by kernel reduction. -/
def roundHalfEven4 (q : ℚ) : ℤ :=
  let t := q.num * 10000
  let f := t.fdiv (q.den : ℤ)
  let r2 := 2 * (t - f * (q.den : ℤ))
  if r2 < (q.den : ℤ) then f
  else if (q.den : ℤ) < r2 then f + 1
  else if f % 2 = 0 then f else f + 1

/-- Model of Python `round(x, 4)` (banker's rounding to 4 decimal
places, with the score modelled as a rational). -/
def pyRound4 (q : ℚ) : ℚ := mkRat (roundHalfEven4 q) 10000

/-- Message of the labels-not-loaded failure (line 98). -/
def labelsNotLoadedMsg : String :=
  "Error: ImageNet labels could not be loaded from the local CSV file during initialization. Cannot map probabilities to labels."

/-- Message of the missing-endpoint-configuration failure (line 105). -/
def endpointMissingMsg : String :=
  "Error: SAGEMAKER_ENDPOINT_NAME configuration missing."

/-- Message of the unexpected-response-format failure (line 170). -/
def unexpectedFormatMsg : String :=
  "Error: Unexpected SageMaker response format. Expected a JSON object with a 'probabilities' key containing a list."

/-- Placeholder assigned to `predicted_label` before the bounds check
(line 186). -/
def labelOutOfBoundsMsg : String :=
  "Error: Label index out of bounds or mapping failed"

/-- Outcome of `lambda_handler`: the trace of payloads passed to
`publish_response`, the returned dictionary, and the value of the
`IMAGENET_LABELS` global when the handler returns. -/
structure HandlerOutcome where
  published : List Body
  result : LambdaResult
  finalLabels : List String
deriving DecidableEq

/-- The event-extraction block of step 1: the event is modelled by the
value of `event_data.get("image_data")` — `none` when the event fails to
parse or lacks the key; the `if not image_b64` check also rejects the
empty string. -/
def extractImageData (ev : Option String) : Option String :=
  match ev with
  | none => none
  | some s => if s = "" then none else some s

/-- Builds the error outcome shared by the non-traceback failure paths:
publish the `{'error': msg}` payload, return it with the status code. -/
def errorOutcome (cfg : Config) (code : Nat) (msg : String) : HandlerOutcome :=
  { published := publish_response cfg [] (Body.error msg)
    result := ⟨code, Body.error msg⟩
    finalLabels := cfg.labels }

/-- Builds the outcome of the outer `except` block (lines 211–218): the
payload carries both the message and `traceback.format_exc()`. -/
def tbOutcome (cfg : Config) (w : World) (msg : String) : HandlerOutcome :=
  { published := publish_response cfg [] (Body.errorTb msg w.tbText)
    result := ⟨500, Body.errorTb msg w.tbText⟩
    finalLabels := cfg.labels }

/-- Shallow embedding of `lambda_handler` from the main
`lambda_function.py`.  Each `Option` pattern match mirrors a
`try/except` boundary of the source; the branch order follows the
source's linear pipeline. -/
def lambda_handler (cfg : Config) (w : World) (ev : Option String) :
    HandlerOutcome :=
  if cfg.labelsLoaded = false then
    errorOutcome cfg 500 labelsNotLoadedMsg
  else if cfg.endpointName = "" then
    { published := []
      result := ⟨500, Body.error endpointMissingMsg⟩
      finalLabels := cfg.labels }
  else
    match extractImageData ev with
    | none => errorOutcome cfg 400 ("Error parsing event data: " ++ w.excMsg)
    | some image_b64 =>
      match w.b64decode image_b64 with
      | none => errorOutcome cfg 400 ("Error decoding base64 image: " ++ w.excMsg)
      | some image_bytes =>
        match w.imageOpen image_bytes with
        | none => errorOutcome cfg 500 ("Image preprocessing failed: " ++ w.excMsg)
        | some img =>
          match w.invoke cfg.endpointName
              (w.jpegEncode (saveImage (preprocessImage img) "JPEG")) with
          | none => tbOutcome cfg w
              ("Unhandled exception during SageMaker interaction or result processing: " ++ w.excMsg)
          | some respStr =>
            match w.jsonLoads respStr with
            | none => tbOutcome cfg w
                ("Unhandled exception during SageMaker interaction or result processing: " ++ w.excMsg)
            | some parsed =>
              match parsed.getKey "probabilities" with
              | none => errorOutcome cfg 502 unexpectedFormatMsg
              | some v =>
                match v with
                | .arr items =>
                  match asRatList items with
                  | none => tbOutcome cfg w
                      ("Unhandled exception during SageMaker interaction or result processing: " ++ w.excMsg)
                  | some probs =>
                    match listMax probs with
                    | none => tbOutcome cfg w
                        ("Unhandled exception during SageMaker interaction or result processing: " ++ w.excMsg)
                    | some max_prob =>
                      let predicted_index := indexOfQ max_prob probs
                      let predicted_label :=
                        cfg.labels.getD predicted_index labelOutOfBoundsMsg
                      let payload := Body.success predicted_label (pyRound4 max_prob)
                      { published := publish_response cfg [] payload
                        result := ⟨200, payload⟩
                        finalLabels := cfg.labels }
                | _ => tbOutcome cfg w
                    ("Unhandled exception during SageMaker interaction or result processing: " ++ w.excMsg)

/-- A 400-class status code. -/
def is4xx (n : Nat) : Prop := 400 ≤ n ∧ n < 500

instance (n : Nat) : Decidable (is4xx n) := by unfold is4xx; infer_instance

/-- Specification-side description of the first valid CSV row targeting
slot `i`: the label of the first row of shape `[a, b]` whose first field
parses to an int equal to `i` within `[0, 1000)`. -/
def firstLabelFor : List (List String) → Nat → Option String
  | [], _ => none
  | row :: rest, i =>
    match row with
    | [a, b] =>
      match pyInt a with
      | some index =>
        if 0 ≤ index ∧ index < 1000 then
          if index.toNat = i then some b else firstLabelFor rest i
        else firstLabelFor rest i
      | none => firstLabelFor rest i
    | _ => firstLabelFor rest i

/-! ### Device publisher `pub2.py`

The globals `connection_established` and `connection_error_code` are set
by the `on_connect` callback running on the MQTT network thread; the main
thread polls them every 0.1 s.  Time is discretised into those polling
ticks: `flagsAt n` is the value of the globals seen during iteration `n`
of the wait loop. -/

/-- The pair of globals `(connection_established, connection_error_code)`
of `pub2.py`. -/
structure ConnFlags where
  established : Bool
  errorCode : Option Nat
deriving DecidableEq

/-- Values of the globals before any callback ran
(`connection_established = False`, `connection_error_code = None`). -/
def initFlags : ConnFlags := ⟨false, none⟩

/-- The `on_connect` callback of `pub2.py`: `rc == 0` sets the
established flag and clears the error code, any other `rc` clears the
flag and stores the error code. -/
def on_connect (rc : Nat) : ConnFlags :=
  if rc = 0 then ⟨true, none⟩ else ⟨false, some rc⟩

/-- How the connection-wait loop of `pub2.py` terminates. -/
inductive WaitOutcome where
  | proceed : WaitOutcome
  | exitError : WaitOutcome
  | exitTimeout : WaitOutcome
deriving DecidableEq

/-- One modelling of the wait loop
`while not connection_established: sleep(0.1); check error; check timeout`.
Iteration `n` reads the globals `flagsAt n`; after `n + 1` sleeps of
0.1 s the elapsed time is `(n + 1) / 10` seconds, and the loop exits when
it exceeds the 30-second `connection_timeout`.  The fuel argument only
makes the recursion structural: the timeout branch fires at `n = 300`,
before fuel (302 at `n = 0`) can run out. -/
def waitLoopAux (flagsAt : Nat → ConnFlags) : Nat → Nat → WaitOutcome
  | 0, _ => .exitTimeout
  | fuel + 1, n =>
    if (flagsAt n).established then .proceed
    else if (flagsAt n).errorCode.isSome then .exitError
    else if (30 : ℚ) < ((n : ℚ) + 1) / 10 then .exitTimeout
    else waitLoopAux flagsAt fuel (n + 1)

/-- The wait loop started at iteration 0. -/
def waitLoop (flagsAt : Nat → ConnFlags) : WaitOutcome :=
  waitLoopAux flagsAt 302 0

/-- Observable outcome of a run of `pub2.py` from the wait loop onward:
the process exit status (`some 1` for the failure exits, `none` when the
publish loop was entered and later interrupted) and the sequence numbers
of the messages published. -/
structure PubRun where
  exitStatus : Option Nat
  published : List Nat
deriving DecidableEq

/-- The main flow of `pub2.py` after `connect`/`loop_start`: wait for the
connection, then publish numbered messages every 5 s until a
`KeyboardInterrupt` after `interruptAfter` messages; on a failed or
timed-out wait, stop the loop and `sys.exit(1)` without publishing. -/
def pub2Main (flagsAt : Nat → ConnFlags) (interruptAfter : Nat) : PubRun :=
  match waitLoop flagsAt with
  | .proceed =>
    { exitStatus := none
      published := (List.range interruptAfter).map (· + 1) }
  | _ => { exitStatus := some 1, published := [] }

/-- Traces of the connection globals that the single `connect` call can
produce: either the callback never runs, or it runs once at some tick `k`
with result code `rc` and the globals keep that value. -/
def validTrace (flagsAt : Nat → ConnFlags) : Prop :=
  (∀ n, flagsAt n = initFlags) ∨
  ∃ k rc, ∀ n, flagsAt n = if n < k then initFlags else on_connect rc

/-! ### Specification-side contract and concrete fixtures -/

/-- Response-body contract stated by the spec (section 6): the body is
either exactly `{"prediction": string, "confidence": number}` or exactly
`{"error": string}`; the two-key `{'error', 'traceback'}` dictionary does
not match it. -/
def bodyMatchesContract : Body → Prop
  | .success _ _ => True
  | .error _ => True
  | .errorTb _ _ => False

instance : DecidablePred bodyMatchesContract := fun b => by
  cases b <;> simp only [bodyMatchesContract] <;> infer_instance

/-- Concrete event with a nonempty `image_data` string. -/
def evOK : Option String := some "aGVsbG8="

/-- Configuration after a fully successful label load (1000 entries). -/
def cfg1000 : Config :=
  ⟨List.replicate 1000 "tabby", true, "endpoint", "device/image/response"⟩

/-- Configuration with a three-entry label table, for exercising the
mapping step against a matching three-entry probability vector. -/
def cfgThree : Config :=
  ⟨["cat", "dog", "fox"], true, "endpoint", "device/image/response"⟩

/-- Configuration with labels loaded but `SAGEMAKER_ENDPOINT_NAME`
overridden to the empty string. -/
def cfgNoEndpoint : Config :=
  ⟨List.replicate 1000 "tabby", true, "", "device/image/response"⟩

/-- Oracles where every call succeeds and the endpoint answers with a
three-entry probability list whose maximum is attained twice. -/
def wOK : World :=
  { b64decode := fun _ => some [0, 1]
    imageOpen := fun _ => some ⟨640, 480, "CMYK"⟩
    jpegEncode := fun _ => [7]
    invoke := fun _ _ => some "resp"
    jsonLoads := fun _ => some (Json.obj
      [("probabilities", Json.arr [Json.num (mkRat 1 2), Json.num (mkRat 3 4), Json.num (mkRat 3 4)])])
    excMsg := "exc"
    tbText := "tb" }

/-- Oracles where the endpoint answers with a four-entry probability
list (shorter than the 1000-entry label table). -/
def wProbs4 : World :=
  { wOK with jsonLoads := fun _ => some (Json.obj
      [("probabilities", Json.arr
        [Json.num (mkRat 1 10), Json.num (mkRat 1 5), Json.num (mkRat 9 10),
          Json.num (mkRat 1 10)])]) }

/-- Oracles where the decoded bytes are not a decodable image
(`Image.open` raises). -/
def wBadImage : World := { wOK with imageOpen := fun _ => none }

/-- Oracles where the SageMaker invocation raises. -/
def wInvokeFail : World := { wOK with invoke := fun _ _ => none }

/-- Configuration after a failed label load (empty table, cleared flag). -/
def cfgNoLabels : Config := ⟨[], false, "endpoint", "device/image/response"⟩

/-- A connection-flag trace in which the success callback (`rc = 0`)
runs at tick 2. -/
def flags9 : Nat → ConnFlags :=
  fun n => if n < 2 then initFlags else on_connect 0

/-! ## Helper lemmas -/

theorem foldlMax_spec (xs : List ℚ) (a : ℚ) :
    (xs.foldl (fun p q => if p < q then q else p) a = a ∨
      xs.foldl (fun p q => if p < q then q else p) a ∈ xs) ∧
    a ≤ xs.foldl (fun p q => if p < q then q else p) a ∧
    ∀ y ∈ xs, y ≤ xs.foldl (fun p q => if p < q then q else p) a := by
  induction xs generalizing a with
  | nil => simp
  | cons x xs ih =>
    simp only [List.foldl_cons]
    obtain ⟨hmem, hle, hall⟩ := ih (if a < x then x else a)
    refine ⟨?_, ?_, ?_⟩
    · rcases hmem with h | h
      · rw [h]
        by_cases hax : a < x
        · simp [hax]
        · simp [hax]
      · exact Or.inr (List.mem_cons_of_mem _ h)
    · refine le_trans ?_ hle
      by_cases hax : a < x
      · simp [hax, le_of_lt hax]
      · simp [hax]
    · intro y hy
      rcases List.mem_cons.mp hy with rfl | hy
      · refine le_trans ?_ hle
        by_cases hax : a < y
        · simp [hax]
        · simp [hax, le_of_not_lt hax]
      · exact hall y hy

theorem listMax_mem {ps : List ℚ} {m : ℚ} (h : listMax ps = some m) :
    m ∈ ps := by
  cases ps with
  | nil => simp [listMax] at h
  | cons x xs =>
    simp only [listMax, Option.some.injEq] at h
    obtain ⟨hmem, _, _⟩ := foldlMax_spec xs x
    rcases hmem with h' | h'
    · rw [← h, h']; exact List.mem_cons_self x xs
    · rw [← h]; exact List.mem_cons_of_mem _ h'

theorem listMax_ge {ps : List ℚ} {m : ℚ} (h : listMax ps = some m) :
    ∀ y ∈ ps, y ≤ m := by
  cases ps with
  | nil => simp [listMax] at h
  | cons x xs =>
    simp only [listMax, Option.some.injEq] at h
    obtain ⟨_, hle, hall⟩ := foldlMax_spec xs x
    intro y hy
    rcases List.mem_cons.mp hy with rfl | hy
    · rw [← h]; exact hle
    · rw [← h]; exact hall y hy

theorem indexOfQ_lt_length {m : ℚ} {ps : List ℚ} (h : m ∈ ps) :
    indexOfQ m ps < ps.length := by
  induction ps with
  | nil => simp at h
  | cons x xs ih =>
    by_cases hx : x = m
    · simp [indexOfQ, hx]
    · rcases List.mem_cons.mp h with rfl | h'
      · exact absurd rfl hx
      · simpa [indexOfQ, hx, Nat.succ_lt_succ_iff] using ih h'

theorem indexOfQ_getD {m : ℚ} {ps : List ℚ} (h : m ∈ ps) :
    ps.getD (indexOfQ m ps) 0 = m := by
  induction ps with
  | nil => simp at h
  | cons x xs ih =>
    by_cases hx : x = m
    · simp [indexOfQ, hx]
    · rcases List.mem_cons.mp h with rfl | h'
      · exact absurd rfl hx
      · simpa [indexOfQ, hx] using ih h'

theorem indexOfQ_first {m : ℚ} {ps : List ℚ} :
    ∀ j < indexOfQ m ps, ps.getD j 0 ≠ m := by
  induction ps with
  | nil => simp [indexOfQ]
  | cons x xs ih =>
    intro j hj
    by_cases hx : x = m
    · simp [indexOfQ, hx] at hj
    · cases j with
      | zero => simpa using hx
      | succ j =>
        simp only [indexOfQ, hx, if_false] at hj
        simpa using ih j (Nat.lt_of_succ_lt_succ hj)

theorem loadStep_length (s : List (Option String) × Nat) (row : List String) :
    (loadStep s row).1.length = s.1.length := by
  rcases row with _ | ⟨a, _ | ⟨b, _ | ⟨c, t⟩⟩⟩
  · rfl
  · rfl
  · cases hp : pyInt a with
    | none => simp [loadStep, hp]
    | some index =>
      by_cases hr : 0 ≤ index ∧ index < 1000
      · by_cases hslot : s.1.getD index.toNat none = none
        all_goals rw [List.getD_eq_getElem?_getD] at hslot
        · simp [loadStep, hp, hr, hslot]
        · simp [loadStep, hp, hr, hslot]
      · simp [loadStep, hp, hr]
  · rfl

theorem loadFold_go_length (rows : List (List String)) :
    ∀ s : List (Option String) × Nat,
      (rows.foldl loadStep s).1.length = s.1.length := by
  induction rows with
  | nil => intro s; rfl
  | cons r rest ih =>
    intro s
    rw [List.foldl_cons, ih, loadStep_length]

theorem loadStep_preserves_some {s : List (Option String) × Nat}
    {row : List String} {i : Nat} {v : String}
    (h : s.1.getD i none = some v) :
    (loadStep s row).1.getD i none = some v := by
  rcases row with _ | ⟨a, _ | ⟨b, _ | ⟨c, t⟩⟩⟩
  · exact h
  · exact h
  · cases hp : pyInt a with
    | none => simpa [loadStep, hp] using h
    | some index =>
      by_cases hr : 0 ≤ index ∧ index < 1000
      · by_cases hslot : s.1.getD index.toNat none = none
        · have hne : index.toNat ≠ i := by
            intro he; rw [he, h] at hslot; cases hslot
          simp only [loadStep, hp, if_pos hr, if_pos hslot]
          rw [List.getD_eq_getElem?_getD, List.getElem?_set_ne hne,
            ← List.getD_eq_getElem?_getD]
          exact h
        · rw [List.getD_eq_getElem?_getD] at hslot
          simpa [loadStep, hp, hr, hslot] using h
      · simpa [loadStep, hp, hr] using h
  · exact h

theorem loadStep_fresh {s : List (Option String) × Nat}
    {row : List String} {i : Nat} (hi : i < 1000) (hs : s.1.length = 1000)
    (h : s.1.getD i none = none) :
    (loadStep s row).1.getD i none = firstLabelFor [row] i := by
  rcases row with _ | ⟨a, _ | ⟨b, _ | ⟨c, t⟩⟩⟩
  · simpa [loadStep, firstLabelFor] using h
  · simpa [loadStep, firstLabelFor] using h
  · cases hp : pyInt a with
    | none => simpa [loadStep, firstLabelFor, hp] using h
    | some index =>
      by_cases hr : 0 ≤ index ∧ index < 1000
      · by_cases hieq : index.toNat = i
        · subst hieq
          simp only [loadStep, firstLabelFor, hp, if_pos hr, if_pos h, if_pos rfl]
          rw [List.getD_eq_getElem?_getD,
            List.getElem?_set_self (by rw [hs]; exact hi)]
          rfl
        · by_cases hslot : s.1.getD index.toNat none = none
          · simp only [loadStep, firstLabelFor, hp, if_pos hr, if_pos hslot,
              if_neg hieq]
            rw [List.getD_eq_getElem?_getD, List.getElem?_set_ne hieq,
              ← List.getD_eq_getElem?_getD]
            exact h
          · rw [List.getD_eq_getElem?_getD] at hslot
            simpa [loadStep, firstLabelFor, hp, hr, hslot, hieq] using h
      · simpa [loadStep, firstLabelFor, hp, hr] using h
  · simpa [loadStep, firstLabelFor] using h

theorem firstLabelFor_one_some {row : List String} {rest : List (List String)}
    {i : Nat} {b : String} (h : firstLabelFor [row] i = some b) :
    firstLabelFor (row :: rest) i = some b := by
  rcases row with _ | ⟨a, _ | ⟨x, _ | ⟨c, t⟩⟩⟩
  · simp [firstLabelFor] at h
  · simp [firstLabelFor] at h
  · cases hp : pyInt a with
    | none => simp [firstLabelFor, hp] at h
    | some index =>
      by_cases hr : 0 ≤ index ∧ index < 1000
      · by_cases hieq : index.toNat = i
        · simp only [firstLabelFor, hp, if_pos hr, if_pos hieq] at h ⊢
          exact h
        · simp [firstLabelFor, hp, hr, hieq] at h
      · simp [firstLabelFor, hp, hr] at h
  · simp [firstLabelFor] at h

theorem firstLabelFor_one_none {row : List String} {rest : List (List String)}
    {i : Nat} (h : firstLabelFor [row] i = none) :
    firstLabelFor (row :: rest) i = firstLabelFor rest i := by
  rcases row with _ | ⟨a, _ | ⟨x, _ | ⟨c, t⟩⟩⟩
  · simp [firstLabelFor]
  · simp [firstLabelFor]
  · cases hp : pyInt a with
    | none => simp [firstLabelFor, hp]
    | some index =>
      by_cases hr : 0 ≤ index ∧ index < 1000
      · by_cases hieq : index.toNat = i
        · simp [firstLabelFor, hp, hr, hieq] at h
        · simp [firstLabelFor, hp, hr, hieq]
      · simp [firstLabelFor, hp, hr]
  · simp [firstLabelFor]

theorem loadFold_go_entry (rows : List (List String)) :
    ∀ (s : List (Option String) × Nat) (i : Nat), i < 1000 →
      s.1.length = 1000 →
      (s.1.getD i none = none →
        (rows.foldl loadStep s).1.getD i none = firstLabelFor rows i) ∧
      (∀ v, s.1.getD i none = some v →
        (rows.foldl loadStep s).1.getD i none = some v) := by
  induction rows with
  | nil =>
    intro s i _ _
    exact ⟨fun h => by simpa [firstLabelFor] using h, fun v h => h⟩
  | cons r rest ih =>
    intro s i hi hs
    have hs' : (loadStep s r).1.length = 1000 := by
      rw [loadStep_length]; exact hs
    constructor
    · intro h
      rw [List.foldl_cons]
      cases h1 : firstLabelFor [r] i with
      | some b =>
        have := (ih (loadStep s r) i hi hs').2 b
          (by rw [loadStep_fresh hi hs h]; exact h1)
        rw [this, firstLabelFor_one_some h1]
      | none =>
        have := (ih (loadStep s r) i hi hs').1
          (by rw [loadStep_fresh hi hs h]; exact h1)
        rw [this, firstLabelFor_one_none h1]
    · intro v h
      rw [List.foldl_cons]
      exact (ih (loadStep s r) i hi hs').2 v (loadStep_preserves_some h)

theorem loadFold_length (rows : List (List String)) :
    (loadFold rows).1.length = 1000 := by
  unfold loadFold
  rw [loadFold_go_length, List.length_replicate]

theorem loadFold_entry (rows : List (List String)) (i : Nat) (hi : i < 1000) :
    (loadFold rows).1.getD i none = firstLabelFor rows i := by
  unfold loadFold
  refine (loadFold_go_entry rows (List.replicate 1000 none, 0) i hi
    (List.length_replicate 1000 none) ).1 ?_
  rw [List.getD_eq_getElem?_getD, List.getElem?_replicate, if_pos hi]
  rfl

/-- Shared reduction of the handler's success path: when every pipeline
stage succeeds and the probability list is nonempty, the handler returns
status 200 with the label at the first index of the maximum and the
rounded maximum as confidence. -/
theorem handler_success_result (cfg : Config) (w : World) (ev : Option String)
    (b64 : String) (bytes : List Nat) (img : PILImage) (respStr : String)
    (parsed : Json) (items : List Json) (ps : List ℚ) (m : ℚ)
    (hload : cfg.labelsLoaded = true) (hep : cfg.endpointName ≠ "")
    (h1 : extractImageData ev = some b64)
    (h2 : w.b64decode b64 = some bytes)
    (h3 : w.imageOpen bytes = some img)
    (h4 : w.invoke cfg.endpointName
      (w.jpegEncode (saveImage (preprocessImage img) "JPEG")) = some respStr)
    (h5 : w.jsonLoads respStr = some parsed)
    (h6 : parsed.getKey "probabilities" = some (Json.arr items))
    (h7 : asRatList items = some ps)
    (hm : listMax ps = some m) :
    (lambda_handler cfg w ev).result =
      ⟨200, Body.success (cfg.labels.getD (indexOfQ m ps) labelOutOfBoundsMsg)
        (pyRound4 m)⟩ := by
  simp [lambda_handler, hload, hep, h1, h2, h3, h4, h5, h6, h7, hm]

/-! ## Claim theorems -/

/-- C10: `load_labels_from_csv` is all-or-nothing.  For every CSV file
contents — including a missing or unreadable file — either the success
flag is set and the table has exactly 1000 entries, slot `i` holding the
label of the first valid row targeting `i` (so duplicates keep the first
occurrence, and malformed or out-of-range rows contribute nothing), or the
flag is cleared and the table is empty.  A partially filled table is never
returned. -/
theorem load_labels_all_or_nothing (file : Option (List (List String))) :
    ((load_labels_from_csv file).2 = true ∧
      (load_labels_from_csv file).1.length = 1000 ∧
      ∀ i, i < 1000 → ∃ rows lab, file = some rows ∧
        firstLabelFor rows i = some lab ∧
        (load_labels_from_csv file).1.getD i "" = lab) ∨
    ((load_labels_from_csv file).2 = false ∧
      (load_labels_from_csv file).1 = []) := by
  cases file with
  | none => exact Or.inr ⟨rfl, rfl⟩
  | some rows =>
    simp only [load_labels_from_csv]
    by_cases hg : (loadFold rows).2 = 1000 ∧
        ((loadFold rows).1.all Option.isSome = true)
    · rw [if_pos hg]
      refine Or.inl ⟨rfl, by simp [loadFold_length rows], ?_⟩
      intro i hi
      have hiL : i < (loadFold rows).1.length := by
        rw [loadFold_length]; exact hi
      have hgd : (loadFold rows).1.getD i none = (loadFold rows).1[i] := by
        rw [List.getD_eq_getElem?_getD, List.getElem?_eq_getElem hiL]; rfl
      have hsome : ((loadFold rows).1[i]).isSome := by
        exact (List.all_eq_true.mp hg.2) _ (List.getElem_mem hiL)
      obtain ⟨lab, hlab⟩ := Option.isSome_iff_exists.mp hsome
      refine ⟨rows, lab, rfl, ?_, ?_⟩
      · rw [← loadFold_entry rows i hi, hgd, hlab]
      · rw [List.getD_eq_getElem?_getD, List.getElem?_map,
          List.getElem?_eq_getElem hiL]
        simp [hlab]
    · rw [if_neg hg]
      exact Or.inr ⟨rfl, rfl⟩

/-- C3: when fewer than 1000 valid label rows were loaded at
initialization, the success flag is down and every request — whatever its
event and however the external calls would behave — returns status 500
with the labels-not-loaded error message, so no prediction is ever
computed against an incomplete table. -/
theorem labels_unloaded_always_500 (file : Option (List (List String)))
    (ep topic : String) (w : World) (ev : Option String)
    (hcount : labelCount file < 1000) :
    (lambda_handler (initConfig file ep topic) w ev).result =
      ⟨500, Body.error labelsNotLoadedMsg⟩ := by
  have hflag : (load_labels_from_csv file).2 = false := by
    cases file with
    | none => rfl
    | some rows =>
      simp only [labelCount] at hcount
      simp only [load_labels_from_csv]
      rw [if_neg]
      rintro ⟨h1, -⟩
      omega
  simp [lambda_handler, initConfig, hflag, errorOutcome]

/-- Witness for C3 at the concrete empty CSV file. -/
theorem labels_unloaded_always_500_check :
    labelCount (some []) < 1000 ∧
    (lambda_handler (initConfig (some []) "endpoint" "t") wOK evOK).result =
      ⟨500, Body.error labelsNotLoadedMsg⟩ :=
  ⟨by decide,
    labels_unloaded_always_500 (some []) "endpoint" "t" wOK evOK (by decide)⟩

/-- C7: the label table produced at initialization is fixed — when the
loaded flag is up it has exactly 1000 entries — and no invocation of the
handler modifies it: the handler returns with the `IMAGENET_LABELS`
global unchanged on every execution path. -/
theorem label_table_fixed (file : Option (List (List String)))
    (ep topic : String) (w : World) (ev : Option String) :
    ((initConfig file ep topic).labelsLoaded = false ∨
      (initConfig file ep topic).labels.length = 1000) ∧
    (lambda_handler (initConfig file ep topic) w ev).finalLabels =
      (initConfig file ep topic).labels := by
  constructor
  · unfold initConfig
    cases file with
    | none => exact Or.inl rfl
    | some rows =>
      simp only [load_labels_from_csv]
      by_cases hg : (loadFold rows).2 = 1000 ∧
          ((loadFold rows).1.all Option.isSome = true)
      · rw [if_pos hg]
        exact Or.inr (by simp [loadFold_length rows])
      · rw [if_neg hg]
        exact Or.inl rfl
  · unfold lambda_handler
    repeat' split
    all_goals simp [errorOutcome, tbOutcome]

/-- C8: the preprocessing step of the handler — convert to RGB, resize
to 224×224, save as JPEG — yields a 224×224 RGB image encoded as JPEG,
for every image `Image.open` can produce. -/
theorem preprocess_yields_224_rgb_jpeg (img : PILImage) :
    (saveImage (preprocessImage img) "JPEG").image.width = 224 ∧
    (saveImage (preprocessImage img) "JPEG").image.height = 224 ∧
    (saveImage (preprocessImage img) "JPEG").image.mode = "RGB" ∧
    (saveImage (preprocessImage img) "JPEG").format = "JPEG" :=
  ⟨rfl, rfl, rfl, rfl⟩

/-- C2 counterexample: when the SageMaker invocation raises, the body of
the returned 500 is `{'error': ..., 'traceback': ...}` — two keys, not
the `{"error": string}` object the claim allows. -/
theorem response_shape_cx :
    ¬ bodyMatchesContract
      (lambda_handler cfg1000 wInvokeFail evOK).result.body := by decide

/-- C2 amended: every return of the handler is `{'statusCode', 'body'}`
where the body is `{'prediction', 'confidence'}` exactly when the status
is 200, and otherwise `{'error'}` or — on the unhandled-exception path —
`{'error', 'traceback'}`. -/
theorem response_shape_amended (cfg : Config) (w : World) (ev : Option String) :
    ((lambda_handler cfg w ev).result.statusCode = 200 ∧
      ∃ p c, (lambda_handler cfg w ev).result.body = Body.success p c) ∨
    ((lambda_handler cfg w ev).result.statusCode ≠ 200 ∧
      ((∃ m, (lambda_handler cfg w ev).result.body = Body.error m) ∨
        ∃ m t, (lambda_handler cfg w ev).result.body = Body.errorTb m t)) := by
  unfold lambda_handler
  repeat' split
  all_goals simp [errorOutcome, tbOutcome]

/-- C4 counterexample: an event whose `image_data` decodes to bytes that
are not a valid image (the `Image.open` stage raises) is answered with
status 500, which is not a 400-class code, contradicting the claim that
every malformed input — including corrupt image bytes — yields a
400-class payload. -/
theorem malformed_input_4xx_cx :
    (lambda_handler cfg1000 wBadImage evOK).result.statusCode = 500 ∧
    ¬ is4xx (lambda_handler cfg1000 wBadImage evOK).result.statusCode := by
  decide

/-- C4 amended: a missing or empty `image_data` and an invalid base64
string are answered with status 400 and an `{'error'}` body; decoded
bytes that are not a valid image are answered with status 500 (not a
400-class code) and an `{'error'}` body.  On all three paths the handler
returns normally (the embedding is a total function), never raising. -/
theorem malformed_input_amended (cfg : Config) (w : World) (ev : Option String)
    (hload : cfg.labelsLoaded = true) (hep : cfg.endpointName ≠ "") :
    (extractImageData ev = none →
      (lambda_handler cfg w ev).result =
        ⟨400, Body.error ("Error parsing event data: " ++ w.excMsg)⟩) ∧
    (∀ b64, extractImageData ev = some b64 → w.b64decode b64 = none →
      (lambda_handler cfg w ev).result =
        ⟨400, Body.error ("Error decoding base64 image: " ++ w.excMsg)⟩) ∧
    (∀ b64 bytes, extractImageData ev = some b64 →
      w.b64decode b64 = some bytes → w.imageOpen bytes = none →
      (lambda_handler cfg w ev).result =
        ⟨500, Body.error ("Image preprocessing failed: " ++ w.excMsg)⟩) := by
  refine ⟨?_, ?_, ?_⟩
  · intro h
    simp [lambda_handler, hload, hep, h, errorOutcome]
  · intro b64 h1 h2
    simp [lambda_handler, hload, hep, h1, h2, errorOutcome]
  · intro b64 bytes h1 h2 h3
    simp [lambda_handler, hload, hep, h1, h2, h3, errorOutcome]

/-- Witness for C4 (amended) at a concrete configuration and oracles
whose image-open stage fails. -/
theorem malformed_input_amended_check :
    cfg1000.labelsLoaded = true ∧ cfg1000.endpointName ≠ "" ∧
    ((extractImageData evOK = none →
      (lambda_handler cfg1000 wBadImage evOK).result =
        ⟨400, Body.error ("Error parsing event data: " ++ wBadImage.excMsg)⟩) ∧
    (∀ b64, extractImageData evOK = some b64 →
      wBadImage.b64decode b64 = none →
      (lambda_handler cfg1000 wBadImage evOK).result =
        ⟨400, Body.error ("Error decoding base64 image: " ++ wBadImage.excMsg)⟩) ∧
    (∀ b64 bytes, extractImageData evOK = some b64 →
      wBadImage.b64decode b64 = some bytes → wBadImage.imageOpen bytes = none →
      (lambda_handler cfg1000 wBadImage evOK).result =
        ⟨500, Body.error ("Image preprocessing failed: " ++ wBadImage.excMsg)⟩)) :=
  ⟨rfl, by decide,
    malformed_input_amended cfg1000 wBadImage evOK rfl (by decide)⟩

/-- C5 counterexample: with the full 1000-entry label table loaded and a
four-entry probability vector (lengths disagree), the mapping step does
not fail — the handler returns status 200 with the label at the max
index and its rounded confidence. -/
theorem length_mismatch_cx :
    cfg1000.labels.length = 1000 ∧
    (lambda_handler cfg1000 wProbs4 evOK).result =
      ⟨200, Body.success "tabby" (pyRound4 (mkRat 9 10))⟩ := by
  constructor
  · decide
  · decide

/-- C5 amended: a probability vector whose length differs from the label
table's does not make the mapping step fail — the handler only logs a
warning and still returns a 200 success body (when the max index is
beyond the table, the `prediction` field carries the out-of-bounds
placeholder string instead of a label). -/
theorem length_mismatch_amended (cfg : Config) (w : World) (ev : Option String)
    (b64 : String) (bytes : List Nat) (img : PILImage) (respStr : String)
    (parsed : Json) (items : List Json) (ps : List ℚ)
    (hload : cfg.labelsLoaded = true) (hep : cfg.endpointName ≠ "")
    (h1 : extractImageData ev = some b64)
    (h2 : w.b64decode b64 = some bytes)
    (h3 : w.imageOpen bytes = some img)
    (h4 : w.invoke cfg.endpointName
      (w.jpegEncode (saveImage (preprocessImage img) "JPEG")) = some respStr)
    (h5 : w.jsonLoads respStr = some parsed)
    (h6 : parsed.getKey "probabilities" = some (Json.arr items))
    (h7 : asRatList items = some ps)
    (hne : ps ≠ [])
    (hmm : ps.length ≠ cfg.labels.length) :
    (lambda_handler cfg w ev).result.statusCode = 200 ∧
    ∃ p c, (lambda_handler cfg w ev).result.body = Body.success p c := by
  obtain ⟨m, hm⟩ : ∃ m, listMax ps = some m := by
    cases ps with
    | nil => exact absurd rfl hne
    | cons x xs => exact ⟨_, rfl⟩
  rw [handler_success_result cfg w ev b64 bytes img respStr parsed items ps m
    hload hep h1 h2 h3 h4 h5 h6 h7 hm]
  exact ⟨rfl, _, _, rfl⟩

/-- Witness for C5 (amended) at the concrete four-entry probability
vector against the 1000-entry table. -/
theorem length_mismatch_amended_check :
    asRatList [Json.num (mkRat 1 10), Json.num (mkRat 1 5), Json.num (mkRat 9 10),
      Json.num (mkRat 1 10)] = some [mkRat 1 10, mkRat 1 5, mkRat 9 10, mkRat 1 10] ∧
    ([mkRat 1 10, mkRat 1 5, mkRat 9 10, mkRat 1 10].length ≠ cfg1000.labels.length) ∧
    (lambda_handler cfg1000 wProbs4 evOK).result.statusCode = 200 ∧
    ∃ p c, (lambda_handler cfg1000 wProbs4 evOK).result.body =
      Body.success p c :=
  ⟨by decide, by decide,
    length_mismatch_amended cfg1000 wProbs4 evOK "aGVsbG8=" [0, 1]
      ⟨640, 480, "CMYK"⟩ "resp"
      (Json.obj [("probabilities", Json.arr [Json.num (mkRat 1 10), Json.num (mkRat 1 5),
        Json.num (mkRat 9 10), Json.num (mkRat 1 10)])])
      [Json.num (mkRat 1 10), Json.num (mkRat 1 5), Json.num (mkRat 9 10), Json.num (mkRat 1 10)]
      [mkRat 1 10, mkRat 1 5, mkRat 9 10, mkRat 1 10]
      rfl (by decide) rfl rfl rfl rfl rfl rfl rfl (by decide) (by decide)⟩

/-- C6 counterexample: with labels loaded but `SAGEMAKER_ENDPOINT_NAME`
empty, the handler returns a non-200 response (500) without publishing
anything to the response topic, contradicting the claim that every
non-200 path publishes the error payload first. -/
theorem error_publish_cx :
    (lambda_handler cfgNoEndpoint wOK evOK).result.statusCode ≠ 200 ∧
    (lambda_handler cfgNoEndpoint wOK evOK).published = [] := by
  decide

/-- C6 amended: on every non-200 path except the
missing-endpoint-configuration check (which returns without publishing),
and provided the response topic is configured, the handler passes exactly
the returned error body to `publish_response` before returning. -/
theorem error_publish_amended (cfg : Config) (w : World) (ev : Option String)
    (hep : cfg.endpointName ≠ "") (ht : cfg.responseTopic ≠ "")
    (hcode : (lambda_handler cfg w ev).result.statusCode ≠ 200) :
    (lambda_handler cfg w ev).published =
      [(lambda_handler cfg w ev).result.body] := by
  revert hcode
  unfold lambda_handler
  repeat' split
  all_goals intro hcode
  all_goals simp_all [errorOutcome, tbOutcome, publish_response, ht]

/-- Witness for C6 (amended) at the failed-label-load configuration. -/
theorem error_publish_amended_check :
    cfgNoLabels.endpointName ≠ "" ∧ cfgNoLabels.responseTopic ≠ "" ∧
    (lambda_handler cfgNoLabels wOK evOK).result.statusCode ≠ 200 ∧
    (lambda_handler cfgNoLabels wOK evOK).published =
      [(lambda_handler cfgNoLabels wOK evOK).result.body] :=
  ⟨by decide, by decide, by decide,
    error_publish_amended cfgNoLabels wOK evOK (by decide) (by decide)
      (by decide)⟩

/-- C1: when the pipeline reaches the mapping step with a nonempty
probability vector whose length equals the label table's, the handler
returns status 200 pairing the label stored at the index of the maximum
score — the first (lowest-index) occurrence on ties — with that maximum
rounded to 4 decimal places as the confidence. -/
theorem argmax_label_pairing (cfg : Config) (w : World) (ev : Option String)
    (b64 : String) (bytes : List Nat) (img : PILImage) (respStr : String)
    (parsed : Json) (items : List Json) (ps : List ℚ)
    (hload : cfg.labelsLoaded = true) (hep : cfg.endpointName ≠ "")
    (h1 : extractImageData ev = some b64)
    (h2 : w.b64decode b64 = some bytes)
    (h3 : w.imageOpen bytes = some img)
    (h4 : w.invoke cfg.endpointName
      (w.jpegEncode (saveImage (preprocessImage img) "JPEG")) = some respStr)
    (h5 : w.jsonLoads respStr = some parsed)
    (h6 : parsed.getKey "probabilities" = some (Json.arr items))
    (h7 : asRatList items = some ps)
    (hlen : ps.length = cfg.labels.length)
    (hne : ps ≠ []) :
    ∃ i lab, i < ps.length ∧
      (∀ j, j < ps.length → ps.getD j 0 ≤ ps.getD i 0) ∧
      (∀ j, j < i → ps.getD j 0 < ps.getD i 0) ∧
      cfg.labels[i]? = some lab ∧
      (lambda_handler cfg w ev).result =
        ⟨200, Body.success lab (pyRound4 (ps.getD i 0))⟩ := by
  obtain ⟨m, hm⟩ : ∃ m, listMax ps = some m := by
    cases ps with
    | nil => exact absurd rfl hne
    | cons x xs => exact ⟨_, rfl⟩
  have hmem := listMax_mem hm
  have hge := listMax_ge hm
  have hilt : indexOfQ m ps < ps.length := indexOfQ_lt_length hmem
  have higet : ps.getD (indexOfQ m ps) 0 = m := indexOfQ_getD hmem
  have hiltL : indexOfQ m ps < cfg.labels.length := hlen ▸ hilt
  have hlab : cfg.labels[indexOfQ m ps]? =
      some (cfg.labels.getD (indexOfQ m ps) labelOutOfBoundsMsg) := by
    rw [List.getD_eq_getElem?_getD, List.getElem?_eq_getElem hiltL]
    rfl
  refine ⟨indexOfQ m ps, cfg.labels.getD (indexOfQ m ps) labelOutOfBoundsMsg,
    hilt, ?_, ?_, hlab, ?_⟩
  · intro j hj
    rw [higet]
    refine hge _ ?_
    rw [List.getD_eq_getElem?_getD, List.getElem?_eq_getElem hj]
    exact List.getElem_mem hj
  · intro j hj
    have hjlt : j < ps.length := lt_trans hj hilt
    have hmem' : ps.getD j 0 ∈ ps := by
      rw [List.getD_eq_getElem?_getD, List.getElem?_eq_getElem hjlt]
      exact List.getElem_mem hjlt
    rw [higet]
    exact lt_of_le_of_ne (hge _ hmem') (indexOfQ_first j hj)
  · rw [higet]
    exact handler_success_result cfg w ev b64 bytes img respStr parsed items
      ps m hload hep h1 h2 h3 h4 h5 h6 h7 hm

/-- Witness for C1 at a three-entry label table and the tied three-entry
probability vector `[mkRat 1 2, mkRat 3 4, mkRat 3 4]` (first maximum at index 1,
label "dog"). -/
theorem argmax_label_pairing_check :
    ([mkRat 1 2, mkRat 3 4, mkRat 3 4].length = cfgThree.labels.length) ∧
    ∃ i lab, i < [mkRat 1 2, mkRat 3 4, mkRat 3 4].length ∧
      (∀ j, j < [mkRat 1 2, mkRat 3 4, mkRat 3 4].length →
        [mkRat 1 2, mkRat 3 4, mkRat 3 4].getD j 0 ≤ [mkRat 1 2, mkRat 3 4, mkRat 3 4].getD i 0) ∧
      (∀ j, j < i →
        [mkRat 1 2, mkRat 3 4, mkRat 3 4].getD j 0 < [mkRat 1 2, mkRat 3 4, mkRat 3 4].getD i 0) ∧
      cfgThree.labels[i]? = some lab ∧
      (lambda_handler cfgThree wOK evOK).result =
        ⟨200, Body.success lab (pyRound4 ([mkRat 1 2, mkRat 3 4, mkRat 3 4].getD i 0))⟩ :=
  ⟨by decide,
    argmax_label_pairing cfgThree wOK evOK "aGVsbG8=" [0, 1]
      ⟨640, 480, "CMYK"⟩ "resp"
      (Json.obj [("probabilities", Json.arr [Json.num (mkRat 1 2), Json.num (mkRat 3 4),
        Json.num (mkRat 3 4)])])
      [Json.num (mkRat 1 2), Json.num (mkRat 3 4), Json.num (mkRat 3 4)]
      [mkRat 1 2, mkRat 3 4, mkRat 3 4]
      rfl (by decide) rfl rfl rfl rfl rfl rfl (by decide) (by decide)
      (by decide)⟩

theorem waitLoopAux_proceed_estab (flagsAt : Nat → ConnFlags) :
    ∀ fuel n, waitLoopAux flagsAt fuel n = WaitOutcome.proceed →
      ∃ m, (flagsAt m).established = true := by
  intro fuel
  induction fuel with
  | zero => intro n h; simp [waitLoopAux] at h
  | succ fuel ih =>
    intro n h
    rw [waitLoopAux] at h
    by_cases h1 : (flagsAt n).established = true
    · exact ⟨n, h1⟩
    · rw [if_neg h1] at h
      by_cases h2 : (flagsAt n).errorCode.isSome = true
      · rw [if_pos h2] at h; cases h
      · rw [if_neg h2] at h
        by_cases h3 : (30 : ℚ) < ((n : ℚ) + 1) / 10
        · rw [if_pos h3] at h; cases h
        · rw [if_neg h3] at h
          exact ih (n + 1) h

theorem waitLoopAux_timeout (flagsAt : Nat → ConnFlags)
    (hq : ∀ m, m ≤ 300 →
      (flagsAt m).established = false ∧ (flagsAt m).errorCode = none) :
    ∀ fuel n, n ≤ 300 → 301 ≤ n + fuel →
      waitLoopAux flagsAt fuel n = WaitOutcome.exitTimeout := by
  intro fuel
  induction fuel with
  | zero => intro n h1 h2; omega
  | succ fuel ih =>
    intro n h1 h2
    obtain ⟨he, hc⟩ := hq n h1
    rw [waitLoopAux, if_neg (by rw [he]; exact Bool.false_ne_true),
      if_neg (by rw [hc]; exact Bool.false_ne_true)]
    rcases Nat.lt_or_ge n 300 with hn | hn
    · have h3 : ¬ (30 : ℚ) < ((n : ℚ) + 1) / 10 := by
        rw [not_lt, div_le_iff₀ (by norm_num : (0 : ℚ) < 10)]
        have hcast : (n : ℚ) ≤ 299 := by exact_mod_cast Nat.le_of_lt_succ hn
        linarith
      rw [if_neg h3]
      exact ih (n + 1) (by omega) (by omega)
    · have hn300 : n = 300 := by omega
      subst hn300
      rw [if_pos (by norm_num : (30 : ℚ) < (((300 : ℕ) : ℚ) + 1) / 10)]
      
/-- C9: in the device publisher, (1) a message can only have been
published if the success callback (`rc = 0`) ran and set the
established flag; (2) a callback with a nonzero result code leads to
`sys.exit(1)` with nothing published; (3) so does a run in which the
callback never fires; and (4) so does a callback arriving only after the
30-second timeout (more than 300 polling ticks of 0.1 s). -/
theorem pub2_connection_gating (flagsAt : Nat → ConnFlags)
    (interruptAfter : Nat) (hv : validTrace flagsAt) :
    ((pub2Main flagsAt interruptAfter).published ≠ [] →
      ∃ n, flagsAt n = on_connect 0 ∧ (flagsAt n).established = true) ∧
    (∀ k rc, rc ≠ 0 →
      (∀ n, flagsAt n = if n < k then initFlags else on_connect rc) →
      pub2Main flagsAt interruptAfter = ⟨some 1, []⟩) ∧
    ((∀ n, flagsAt n = initFlags) →
      pub2Main flagsAt interruptAfter = ⟨some 1, []⟩) ∧
    (∀ k rc, 300 < k →
      (∀ n, flagsAt n = if n < k then initFlags else on_connect rc) →
      pub2Main flagsAt interruptAfter = ⟨some 1, []⟩) := by
  refine ⟨?_, ?_, ?_, ?_⟩
  · intro hpub
    have hproceed : waitLoop flagsAt = WaitOutcome.proceed := by
      cases hw : waitLoop flagsAt with
      | proceed => rfl
      | exitError =>
        exfalso; apply hpub; unfold pub2Main; rw [hw]
      | exitTimeout =>
        exfalso; apply hpub; unfold pub2Main; rw [hw]
    obtain ⟨m, hm⟩ := waitLoopAux_proceed_estab flagsAt 302 0 hproceed
    rcases hv with hinit | ⟨k, rc, hk⟩
    · rw [hinit m] at hm; cases hm
    · have hfm := hk m
      by_cases hmk : m < k
      · rw [if_pos hmk] at hfm; rw [hfm] at hm; cases hm
      · rw [if_neg hmk] at hfm
        by_cases hrc : rc = 0
        · subst hrc; exact ⟨m, hfm, hm⟩
        · rw [hfm] at hm
          simp [on_connect, hrc] at hm
  · intro k rc hrc hk
    have hnp : ∀ m, (flagsAt m).established = false := by
      intro m
      rcases Nat.lt_or_ge m k with h | h
      · rw [hk m, if_pos h]; rfl
      · rw [hk m, if_neg (Nat.not_lt.mpr h)]
        simp [on_connect, hrc]
    have hne : waitLoop flagsAt ≠ WaitOutcome.proceed := by
      intro hp
      obtain ⟨m, hm⟩ := waitLoopAux_proceed_estab flagsAt 302 0 hp
      rw [hnp m] at hm; cases hm
    unfold pub2Main
    cases hw : waitLoop flagsAt with
    | proceed => exact absurd hw hne
    | exitError => rfl
    | exitTimeout => rfl
  · intro hinit
    have hne : waitLoop flagsAt ≠ WaitOutcome.proceed := by
      intro hp
      obtain ⟨m, hm⟩ := waitLoopAux_proceed_estab flagsAt 302 0 hp
      rw [hinit m] at hm; cases hm
    unfold pub2Main
    cases hw : waitLoop flagsAt with
    | proceed => exact absurd hw hne
    | exitError => rfl
    | exitTimeout => rfl
  · intro k rc hk300 hk
    have hq : ∀ m, m ≤ 300 →
        (flagsAt m).established = false ∧ (flagsAt m).errorCode = none := by
      intro m hm
      rw [hk m, if_pos (by omega : m < k)]
      exact ⟨rfl, rfl⟩
    have hw : waitLoop flagsAt = WaitOutcome.exitTimeout :=
      waitLoopAux_timeout flagsAt hq 302 0 (by omega) (by omega)
    unfold pub2Main
    rw [hw]

/-- Witness for C9 at the trace whose success callback runs at tick 2,
with the publish loop interrupted after 3 messages. -/
theorem pub2_connection_gating_check :
    validTrace flags9 ∧
    (((pub2Main flags9 3).published ≠ [] →
      ∃ n, flags9 n = on_connect 0 ∧ (flags9 n).established = true) ∧
    (∀ k rc, rc ≠ 0 →
      (∀ n, flags9 n = if n < k then initFlags else on_connect rc) →
      pub2Main flags9 3 = ⟨some 1, []⟩) ∧
    ((∀ n, flags9 n = initFlags) → pub2Main flags9 3 = ⟨some 1, []⟩) ∧
    (∀ k rc, 300 < k →
      (∀ n, flags9 n = if n < k then initFlags else on_connect rc) →
      pub2Main flags9 3 = ⟨some 1, []⟩)) :=
  ⟨Or.inr ⟨2, 0, fun n => rfl⟩,
    pub2_connection_gating flags9 3 (Or.inr ⟨2, 0, fun n => rfl⟩)⟩

end MqttImgClass
